import Mathlib

/-!
# Attendance Session Engine — shallow embedding

Shallow embedding of the attendance controller of the
humanityfounders-portal backend (the `clockIn`, `goAway`, `resume`,
`clockOut`, `getToday`, `getHistory` and `adminOverride` handlers and
their helpers `getTodayRange`, `getRecordForClockIn`, `getActiveRecord`),
together with the `Attendance` document schema.

Modelling conventions:
* JavaScript `Date` values are modelled as `Int` milliseconds since the
  epoch (local time is identified with the epoch offset; a calendar day
  is a span of 86400000 ms starting at a multiple of 86400000).
* `Math.floor((a - b) / 1000)` on millisecond timestamps is `Int.fdiv
  (a - b) 1000` (`fdiv` is floor division, exactly `Math.floor`).
* The Mongo collection of one user's attendance documents is a
  `List AttendanceRecord` in insertion order; `findOne` is "first
  element satisfying the filter", `save` of a found document is
  `List.set` at the found index, `save` of a new document appends.
* Each handler returns the new store, the HTTP-level response
  (`ok` data for a 2xx, `err` message for a 400 rejection) and the
  ordered trace of store accesses (`read` for a findOne/find,
  `write` for a save) performed during the call.
-/

/-- The four values of the `status` enum of the Attendance schema. -/
inductive Status where
  | clockedIn
  | clockedOut
  | away
  | absent
deriving DecidableEq, Repr

/-- A `sessions` array entry: `{start, end?, duration}`.  The schema
default for `duration` is `0`; `end` may be unset (`finish = none`
models a missing `end`). -/
structure SessionEntry where
  start : Int
  finish : Option Int
  duration : Int
deriving DecidableEq, Repr

/-- A `breaks` array entry, same shape as a session entry. -/
structure BreakEntry where
  start : Int
  finish : Option Int
  duration : Int
deriving DecidableEq, Repr

/-- One Attendance document (for a fixed user, so the `user` field is
dropped).  Schema defaults: `status = absent`, `activeSeconds = 0`,
`dailyReport = ""`, arrays empty, Date fields unset. -/
structure AttendanceRecord where
  date : Int
  status : Status
  clockIn : Option Int
  clockOut : Option Int
  activeSeconds : Int
  lastActiveAt : Option Int
  sessions : List SessionEntry
  breaks : List BreakEntry
  dailyReport : String
deriving DecidableEq, Repr

/-- One user's attendance collection, in insertion order. -/
abbrev Store := List AttendanceRecord

/-- A store access performed by a handler: a `findOne`/`find` is a
`read`, a `save` is a `write`. -/
inductive StoreEvent where
  | read
  | write
deriving DecidableEq, Repr

/-- Handler response: `ok` with the JSON `data` for a 2xx, `err` with
the `message` for a 400 rejection. -/
inductive Resp (α : Type) where
  | ok (data : α)
  | err (msg : String)
deriving DecidableEq, Repr

/-- Result of one handler call: the store after the call, the response,
and the ordered trace of store accesses made during the call. -/
structure OpOut (α : Type) where
  store : Store
  response : Resp α
  events : List StoreEvent
deriving DecidableEq

/-- `Math.floor(ms / 1000)`: milliseconds to whole seconds. -/
def msToSec (ms : Int) : Int := Int.fdiv ms 1000

/-- `getTodayRange().start`: local midnight of the day containing
`now` (in the ms model, the greatest multiple of 86400000 not above
`now`). -/
def getTodayRangeStart (now : Int) : Int :=
  86400000 * Int.fdiv now 86400000

/-- First element of the list satisfying `p`, with its index (`findOne`
plus the position needed to model the later `save`). -/
def findWithIdx (p : α → Bool) : List α → Option (Nat × α)
  | [] => none
  | a :: as =>
    if p a then some (0, a)
    else (findWithIdx p as).map (fun x => (x.1 + 1, x.2))

/-- The `status: { $in: ["clocked-in", "away"] }` filter. -/
def isActiveStatus (s : Status) : Bool :=
  s = Status.clockedIn || s = Status.away

/-- `getActiveRecord`: `findOne({user, status: {$in: [clocked-in,
away]}})` — any active record regardless of `date`. -/
def getActiveRecord (store : Store) : Option (Nat × AttendanceRecord) :=
  findWithIdx (fun r => isActiveStatus r.status) store

/-- `findOne({user, date})`. -/
def findByDate (store : Store) (day : Int) : Option (Nat × AttendanceRecord) :=
  findWithIdx (fun r => r.date = day) store

/-- The brand-new document built inside `getRecordForClockIn`:
`{date: start, status: "absent", activeSeconds: 0, clockIn: new Date(),
sessions: []}` with schema defaults for the other fields. -/
def newDayRecord (day now : Int) : AttendanceRecord :=
  { date := day
    status := Status.absent
    clockIn := some now
    clockOut := none
    activeSeconds := 0
    lastActiveAt := none
    sessions := []
    breaks := []
    dailyReport := "" }

/-- Outcome of `getRecordForClockIn`: an active record was found (any
date), today's record was found, or a fresh record was built. -/
inductive ClockInLookup where
  | active (i : Nat) (r : AttendanceRecord)
  | existing (i : Nat) (r : AttendanceRecord)
  | fresh (r : AttendanceRecord)
deriving DecidableEq, Repr

/-- `getRecordForClockIn`: first the cross-day active lookup (one
read), then the date-scoped lookup (a second read), creating today's
record if neither finds one. -/
def getRecordForClockIn (store : Store) (now : Int) :
    ClockInLookup × List StoreEvent :=
  match getActiveRecord store with
  | some x => (ClockInLookup.active x.1 x.2, [StoreEvent.read])
  | none =>
    match findByDate store (getTodayRangeStart now) with
    | some x => (ClockInLookup.existing x.1 x.2, [StoreEvent.read, StoreEvent.read])
    | none =>
      (ClockInLookup.fresh (newDayRecord (getTodayRangeStart now) now),
       [StoreEvent.read, StoreEvent.read])

/-- The mutation the `clockIn` handler applies to the located record:
`record.status = "clocked-in"; record.lastActiveAt = now`. -/
def startWork (r : AttendanceRecord) (now : Int) : AttendanceRecord :=
  { r with status := Status.clockedIn, lastActiveAt := some now }

/-- The `data` object of a successful clock-in response. -/
structure ClockInData where
  clockIn : Option Int
  status : Status
  activeSeconds : Int
deriving DecidableEq, Repr

/-- `POST /api/attendance/clock-in`. -/
def clockIn (store : Store) (now : Int) : OpOut ClockInData :=
  match getRecordForClockIn store now with
  | (ClockInLookup.active _ _, evs) =>
    { store := store
      response := Resp.err "You are already clocked in. Please clock out first."
      events := evs }
  | (ClockInLookup.existing i r, evs) =>
    let r2 := startWork r now
    { store := store.set i r2
      response := Resp.ok { clockIn := r2.clockIn, status := r2.status,
                            activeSeconds := r2.activeSeconds }
      events := evs ++ [StoreEvent.write] }
  | (ClockInLookup.fresh r, evs) =>
    let r2 := startWork r now
    { store := store ++ [r2]
      response := Resp.ok { clockIn := r2.clockIn, status := r2.status,
                            activeSeconds := r2.activeSeconds }
      events := evs ++ [StoreEvent.write] }

/-- The mutation the `goAway` handler applies to the active record:
close the open active segment (accumulate `activeSeconds`, push a
closed `sessions` entry), open a break, pause the timer. -/
def goAwayRec (r : AttendanceRecord) (now : Int) : AttendanceRecord :=
  let r1 :=
    match r.lastActiveAt with
    | some la =>
      let seg := msToSec (now - la)
      { r with activeSeconds := r.activeSeconds + seg
               sessions := r.sessions ++
                 [({ start := la, finish := some now, duration := seg } : SessionEntry)] }
    | none => r
  { r1 with breaks := r1.breaks ++ [({ start := now, finish := none, duration := 0 } : BreakEntry)]
            status := Status.away
            lastActiveAt := none }

/-- The `data` object of a successful go-away response. -/
structure AwayData where
  status : Status
  activeSeconds : Int
  breakStart : Int
deriving DecidableEq, Repr

/-- `POST /api/attendance/away`. -/
def goAway (store : Store) (now : Int) : OpOut AwayData :=
  match getActiveRecord store with
  | some (i, r) =>
    if r.status = Status.clockedIn then
      let r2 := goAwayRec r now
      { store := store.set i r2
        response := Resp.ok { status := r2.status, activeSeconds := r2.activeSeconds,
                              breakStart := now }
        events := [StoreEvent.read, StoreEvent.write] }
    else
      { store := store
        response := Resp.err "You must be clocked in to go away"
        events := [StoreEvent.read] }
  | none =>
    { store := store
      response := Resp.err "You must be clocked in to go away"
      events := [StoreEvent.read] }

/-- `breaks[breaks.length - 1]`: close the last break entry when it is
open (`!currentBreak.end`), setting its `end` and `duration`. -/
def closeLastBreak (breaks : List BreakEntry) (now : Int) : List BreakEntry :=
  match breaks.getLast? with
  | some b =>
    if b.finish = none then
      breaks.dropLast ++
        [{ start := b.start, finish := some now, duration := msToSec (now - b.start) }]
    else breaks
  | none => breaks

/-- The mutation the `resume` handler applies to the active record:
close the open break, restart the active timer. -/
def resumeRec (r : AttendanceRecord) (now : Int) : AttendanceRecord :=
  { r with breaks := closeLastBreak r.breaks now
           status := Status.clockedIn
           lastActiveAt := some now }

/-- The `data` object of a successful resume response. -/
structure ResumeData where
  status : Status
  activeSeconds : Int
  lastActiveAt : Option Int
deriving DecidableEq, Repr

/-- `POST /api/attendance/resume`. -/
def resume (store : Store) (now : Int) : OpOut ResumeData :=
  match getActiveRecord store with
  | some (i, r) =>
    if r.status = Status.away then
      let r2 := resumeRec r now
      { store := store.set i r2
        response := Resp.ok { status := r2.status, activeSeconds := r2.activeSeconds,
                              lastActiveAt := r2.lastActiveAt }
        events := [StoreEvent.read, StoreEvent.write] }
    else
      { store := store
        response := Resp.err "You are not on a break"
        events := [StoreEvent.read] }
  | none =>
    { store := store
      response := Resp.err "You are not on a break"
      events := [StoreEvent.read] }

/-- Stand-in for `Date.prototype.toLocaleTimeString`, whose exact
output is locale and timezone dependent; no verified claim depends on
the rendered text, only on whether `dailyReport` was empty. -/
def localeTime (t : Int) : String := toString t

/-- Characters removed by `String.prototype.trim` (the common ASCII
whitespace set: space, tab, LF, VT, FF, CR). -/
def isJsWhitespace (c : Char) : Bool :=
  c == ' ' || c == '\t' || c == '\n' || c == '\r' ||
  c == Char.ofNat 11 || c == Char.ofNat 12

/-- Drop the leading whitespace characters of a character list. -/
def dropLeadingWs : List Char → List Char
  | [] => []
  | c :: cs => if isJsWhitespace c then dropLeadingWs cs else c :: cs

/-- `String.prototype.trim`: strip whitespace from both ends. -/
def jsTrim (s : String) : String :=
  String.mk (List.reverse (dropLeadingWs (List.reverse (dropLeadingWs s.data))))

/-- `b.duration || 0` summed over the `breaks` array. -/
def totalBreakSeconds (breaks : List BreakEntry) : Int :=
  breaks.foldl (fun s b => s + b.duration) 0

/-- The mutation the `clockOut` handler applies to the active record
once validation has passed: close the open segment if clocked-in, close
the open break if away, stamp `clockOut`, set status, clear the timer
and append the report. -/
def clockOutRec (r : AttendanceRecord) (now : Int) (report : String) : AttendanceRecord :=
  let r1 :=
    if r.status = Status.clockedIn then
      match r.lastActiveAt with
      | some la =>
        let seg := msToSec (now - la)
        { r with activeSeconds := r.activeSeconds + seg
                 sessions := r.sessions ++
                   [({ start := la, finish := some now, duration := seg } : SessionEntry)] }
      | none => r
    else r
  let r2 :=
    if r.status = Status.away then { r1 with breaks := closeLastBreak r1.breaks now }
    else r1
  { r2 with clockOut := some now
            status := Status.clockedOut
            lastActiveAt := none
            dailyReport :=
              if r2.dailyReport ≠ "" then
                r2.dailyReport ++ "\n[" ++ localeTime now ++ "]: " ++ jsTrim report
              else jsTrim report }

/-- The `data` object of a successful clock-out response. -/
structure ClockOutData where
  clockIn : Option Int
  clockOut : Option Int
  activeSeconds : Int
  totalBreakSeconds : Int
  dailyReport : String
deriving DecidableEq, Repr

/-- `!dailyReport || !dailyReport.trim()`: the report is absent from
the body, empty, or whitespace only. -/
def reportEmpty (report : Option String) : Bool :=
  match report with
  | none => true
  | some s => jsTrim s = ""

/-- `POST /api/attendance/clock-out`.  Note the order taken from the
source: the active record is fetched (a store read) before the
`dailyReport` body field is validated. -/
def clockOut (store : Store) (now : Int) (report : Option String) : OpOut ClockOutData :=
  match getActiveRecord store with
  | none =>
    { store := store
      response := Resp.err "You are not clocked in. Please clock in first."
      events := [StoreEvent.read] }
  | some (i, r) =>
    if reportEmpty report then
      { store := store
        response := Resp.err "Daily report is required when clocking out"
        events := [StoreEvent.read] }
    else
      let r2 := clockOutRec r now (report.getD "")
      { store := store.set i r2
        response := Resp.ok { clockIn := r2.clockIn, clockOut := r2.clockOut,
                              activeSeconds := r2.activeSeconds,
                              totalBreakSeconds := totalBreakSeconds r2.breaks,
                              dailyReport := r2.dailyReport }
        events := [StoreEvent.read, StoreEvent.write] }

/-- The `data` object of the today-status response.  The no-record
branch of the handler returns an object without the
`totalBreakSeconds`/`breaksCount` keys, hence the `Option` fields. -/
structure TodaySnapshot where
  status : Status
  clockIn : Option Int
  clockOut : Option Int
  activeSeconds : Int
  totalBreakSeconds : Option Int
  breaksCount : Option Nat
  lastActiveAt : Option Int
  dailyReport : String
deriving DecidableEq, Repr

/-- The two-phase lookup of `getToday`: any active record first (one
read), else today's record (a second read). -/
def resolveTodayRecord (store : Store) (now : Int) :
    Option (Nat × AttendanceRecord) × List StoreEvent :=
  match getActiveRecord store with
  | some x => (some x, [StoreEvent.read])
  | none => (findByDate store (getTodayRangeStart now), [StoreEvent.read, StoreEvent.read])

/-- `GET /api/attendance/today`.  Read-only: no save, the store is
returned unchanged. -/
def getToday (store : Store) (now : Int) : OpOut TodaySnapshot :=
  match resolveTodayRecord store now with
  | (none, evs) =>
    { store := store
      response := Resp.ok { status := Status.absent, clockIn := none, clockOut := none,
                            activeSeconds := 0, totalBreakSeconds := none,
                            breaksCount := none, lastActiveAt := none, dailyReport := "" }
      events := evs }
  | (some (_, r), evs) =>
    let live :=
      r.activeSeconds +
        (match r.status, r.lastActiveAt with
         | Status.clockedIn, some la => msToSec (now - la)
         | _, _ => 0)
    { store := store
      response := Resp.ok { status := r.status, clockIn := r.clockIn,
                            clockOut := r.clockOut, activeSeconds := live,
                            totalBreakSeconds := some (totalBreakSeconds r.breaks),
                            breaksCount := some r.breaks.length,
                            lastActiveAt := r.lastActiveAt,
                            dailyReport := r.dailyReport }
      events := evs }

/-- The `date: { $gte: start, $lte: end }` range query of
`getHistory` (the sort only orders the response list and does not
affect the aggregate stats). -/
def historyRecords (store : Store) (start stop : Int) : List AttendanceRecord :=
  store.filter (fun r => decide (start ≤ r.date) && decide (r.date ≤ stop))

/-- The `daysPresent` filter: `status ∈ {clocked-in, clocked-out,
away}`. -/
def isPresentStatus (s : Status) : Bool :=
  s = Status.clockedIn || s = Status.clockedOut || s = Status.away

/-- `daysPresent` stat of `getHistory`. -/
def daysPresent (records : List AttendanceRecord) : Nat :=
  (records.filter (fun r => isPresentStatus r.status)).length

/-- `records.reduce((sum, r) => sum + (r.activeSeconds || 0), 0)`. -/
def totalActiveSeconds (records : List AttendanceRecord) : Int :=
  records.foldl (fun s r => s + r.activeSeconds) 0

/-- `Math.round((totalActiveSeconds / 3600) * 10) / 10`, over exact
rationals; `Math.round x = ⌊x + 1/2⌋`. -/
def totalWorkingHours (records : List AttendanceRecord) : ℚ :=
  ((Rat.floor ((totalActiveSeconds records : ℚ) / 3600 * 10 + 1/2) : ℚ)) / 10

/-- The two values of the `status` body field of the override route. -/
inductive OverrideStatus where
  | present
  | absent
deriving DecidableEq, Repr

/-- The mutation `adminOverride` applies to an existing record for the
requested day (`day` is the parsed local midnight).  Note: on the
`present` branch `lastActiveAt` is left untouched. -/
def overrideExistingRec (r : AttendanceRecord) (day : Int) (st : OverrideStatus) :
    AttendanceRecord :=
  match st with
  | OverrideStatus.absent =>
    { r with status := Status.absent
             activeSeconds := 0
             lastActiveAt := none
             clockIn := none
             clockOut := none
             dailyReport := "Admin marked absent." }
  | OverrideStatus.present =>
    { r with status := Status.clockedOut
             activeSeconds := 28800
             clockIn := match r.clockIn with
                        | none => some day
                        | some c => some c
             clockOut := some (day + 28800 * 1000)
             dailyReport := "Admin overridden." }

/-- The record `adminOverride` creates when the day has no record. -/
def overrideNewRec (day : Int) (st : OverrideStatus) : AttendanceRecord :=
  match st with
  | OverrideStatus.present =>
    { date := day, status := Status.clockedOut, clockIn := some day,
      clockOut := some (day + 28800 * 1000), activeSeconds := 28800,
      lastActiveAt := none, sessions := [], breaks := [],
      dailyReport := "Admin overridden." }
  | OverrideStatus.absent =>
    { date := day, status := Status.absent, clockIn := none, clockOut := none,
      activeSeconds := 0, lastActiveAt := none, sessions := [], breaks := [],
      dailyReport := "Admin overridden." }

/-- `POST /api/attendance/admin/:userId/override` (date already parsed
to the local midnight `day`). -/
def adminOverride (store : Store) (day : Int) (st : OverrideStatus) : OpOut String :=
  match findByDate store day with
  | some (i, r) =>
    { store := store.set i (overrideExistingRec r day st)
      response := Resp.ok "Attendance marked."
      events := [StoreEvent.read, StoreEvent.write] }
  | none =>
    { store := store ++ [overrideNewRec day st]
      response := Resp.ok "Attendance marked."
      events := [StoreEvent.read, StoreEvent.write] }

/-! ## State-machine view of one record

The four handlers mutate the located record through `startWork`,
`goAwayRec`, `resumeRec` and `clockOutRec`; `Step` packages those
mutations together with the preconditions the handlers check before
applying them (`clockIn` requires no active status, `goAway` requires
`clocked-in`, `resume` requires `away`, `clockOut` requires an active
status and a non-blank report). -/

/-- Sum of the `duration` fields of a `sessions` array. -/
def sumSessions (l : List SessionEntry) : Int :=
  l.foldl (fun s e => s + e.duration) 0

/-- A session entry is closed with a consistent duration: `end` is set
and `duration = Math.floor((end - start)/1000)`. -/
def sessionClosedOk (e : SessionEntry) : Bool :=
  match e.finish with
  | some en => e.duration == msToSec (en - e.start)
  | none => false

/-- Every entry of a `sessions` array is closed with a consistent
duration. -/
def sessionsClosedOk (l : List SessionEntry) : Bool :=
  l.all sessionClosedOk

/-- One precondition-respecting handler mutation applied to a record. -/
inductive Step : AttendanceRecord → AttendanceRecord → Prop
  | clockIn (r : AttendanceRecord) (now : Int) (h : isActiveStatus r.status = false) :
      Step r (startWork r now)
  | goAway (r : AttendanceRecord) (now : Int) (h : r.status = Status.clockedIn) :
      Step r (goAwayRec r now)
  | resume (r : AttendanceRecord) (now : Int) (h : r.status = Status.away) :
      Step r (resumeRec r now)
  | clockOut (r : AttendanceRecord) (now : Int) (rep : String)
      (h : isActiveStatus r.status = true) (hrep : jsTrim rep ≠ "") :
      Step r (clockOutRec r now rep)

/-- Reachability by a sequence of precondition-respecting handler
mutations. -/
inductive Reaches : AttendanceRecord → AttendanceRecord → Prop
  | refl (r : AttendanceRecord) : Reaches r r
  | tail {a b c : AttendanceRecord} : Reaches a b → Step b c → Reaches a c

/-- The `lastActiveAt` invariant stated by the spec: the field is set
exactly while the record is clocked-in. -/
def lastActiveInv (r : AttendanceRecord) : Prop :=
  r.lastActiveAt ≠ none ↔ r.status = Status.clockedIn

instance (r : AttendanceRecord) : Decidable (lastActiveInv r) := by
  unfold lastActiveInv
  infer_instance

/-! ## Concrete scenario stores

Timestamps are milliseconds from the local midnight of "day 0":
`09:00 = 32400000`, `11:00 = 39600000`, `11:30 = 41400000`,
`18:00 = 64800000`, `23:50 = 85800000`, next-day `00:20 = 87600000`. -/

/-- C2 scenario: clock-in 09:00, away 11:00, resume 11:30, clock-out
18:00 with report "done", starting from an empty collection. -/
def c2FinalStore : Store :=
  (clockOut (resume (goAway (clockIn [] 32400000).store 39600000).store
    41400000).store 64800000 (some "done")).store

/-- C3 scenario, first half: clock-in at 23:50 of day 0. -/
def c3MidStore : Store := (clockIn [] 85800000).store

/-- C3 scenario, second half: clock-out at 00:20 of day 1. -/
def c3FinalStore : Store := (clockOut c3MidStore 87600000 (some "ok")).store

/-- C4 witness record: clocked-in, 1000 s accumulated, current segment
open since time 0. -/
def c4Rec : AttendanceRecord :=
  { newDayRecord 0 0 with status := Status.clockedIn, lastActiveAt := some 0,
                          activeSeconds := 1000 }

/-- C5 witness record: an away record from day 0. -/
def c5Rec : AttendanceRecord :=
  { newDayRecord 0 0 with status := Status.away }

/-- C6 counterexample store: one clocked-in record. -/
def c6Store : Store := [startWork (newDayRecord 0 0) 0]

/-- C7 example records from the spec: `{activeSeconds: 28800}`,
`{status: absent}`, `{activeSeconds: 3600}`. -/
def c7Records : List AttendanceRecord :=
  [{ newDayRecord 0 0 with status := Status.clockedOut, activeSeconds := 28800 },
   { newDayRecord 86400000 0 with status := Status.absent },
   { newDayRecord 172800000 0 with status := Status.clockedOut, activeSeconds := 3600 }]

/-- C8 witness record: a clocked-out record for day 0. -/
def c8Rec : AttendanceRecord :=
  { newDayRecord 0 0 with status := Status.clockedOut, activeSeconds := 12345,
                          clockOut := some 7200000 }

/-- C9 counterexample: clock in (which sets `lastActiveAt`), then admin
override the same day to present. -/
def c9Store : Store :=
  (adminOverride (clockIn [] 100000).store 0 OverrideStatus.present).store

/-- C1 witness: the fresh record built by a first clock-in. -/
def c1r0 : AttendanceRecord := newDayRecord 0 100000

/-- C1 witness: clock in at 100000 ms, clock out at 200000 ms with
report "x". -/
def c1rFinal : AttendanceRecord :=
  clockOutRec (startWork c1r0 100000) 200000 "x"

/-! ## Theorems -/

/-- Appending one entry adds its duration to the session sum. -/
theorem sumSessions_append (l : List SessionEntry) (e : SessionEntry) :
    sumSessions (l ++ [e]) = sumSessions l + e.duration := by
  simp [sumSessions, List.foldl_append]

/-- Each handler mutation preserves "activeSeconds is the sum of the
closed session durations, and every session entry is closed with
`duration = end - start` in whole seconds". -/
theorem step_preserves {a b : AttendanceRecord} (h : Step a b)
    (h1 : a.activeSeconds = sumSessions a.sessions)
    (h2 : sessionsClosedOk a.sessions = true) :
    b.activeSeconds = sumSessions b.sessions ∧ sessionsClosedOk b.sessions = true := by
  cases h with
  | clockIn now hpre => exact ⟨h1, h2⟩
  | goAway now hpre =>
    cases hla : a.lastActiveAt with
    | none => refine ⟨?_, ?_⟩ <;> simp [goAwayRec, hla, h1, h2]
    | some la =>
      refine ⟨?_, ?_⟩
      · simp [goAwayRec, hla, sumSessions_append, h1]
      · simp only [sessionsClosedOk] at h2
        simp [goAwayRec, hla, sessionsClosedOk, List.all_append, h2, sessionClosedOk]
  | resume now hpre => exact ⟨h1, h2⟩
  | clockOut now rep hpre hrep =>
    by_cases hst : a.status = Status.clockedIn
    · have haw : ¬ (a.status = Status.away) := by rw [hst]; decide
      cases hla : a.lastActiveAt with
      | none => refine ⟨?_, ?_⟩ <;> simp [clockOutRec, hst, haw, hla, h1, h2]
      | some la =>
        refine ⟨?_, ?_⟩
        · simp [clockOutRec, hst, haw, hla, sumSessions_append, h1]
        · simp only [sessionsClosedOk] at h2
          simp [clockOutRec, hst, haw, hla, sessionsClosedOk, List.all_append, h2,
            sessionClosedOk]
    · by_cases haw : a.status = Status.away
      · refine ⟨?_, ?_⟩ <;> simp [clockOutRec, hst, haw, h1, h2]
      · refine ⟨?_, ?_⟩ <;> simp [clockOutRec, hst, haw, h1, h2]

/-- The session-accounting invariant holds along any
precondition-respecting sequence of handler mutations. -/
theorem reaches_preserves {a b : AttendanceRecord} (h : Reaches a b)
    (h1 : a.activeSeconds = sumSessions a.sessions)
    (h2 : sessionsClosedOk a.sessions = true) :
    b.activeSeconds = sumSessions b.sessions ∧ sessionsClosedOk b.sessions = true := by
  induction h with
  | refl => exact ⟨h1, h2⟩
  | tail hab hstep ih => exact step_preserves hstep ih.1 ih.2

/-- C1: for every precondition-respecting sequence of clock-in,
go-away, resume, clock-out mutations starting from a fresh record
(`activeSeconds = 0`, empty `sessions`), at clock-out `activeSeconds`
equals the sum of the closed session durations and every session entry
is closed with `duration = end - start` in whole seconds. -/
theorem c1_activeSeconds_eq_sum_closed_sessions
    (r0 r : AttendanceRecord)
    (hfresh1 : r0.activeSeconds = 0) (hfresh2 : r0.sessions = [])
    (hreach : Reaches r0 r) (_hout : r.status = Status.clockedOut) :
    r.activeSeconds = sumSessions r.sessions ∧ sessionsClosedOk r.sessions = true := by
  have h1 : r0.activeSeconds = sumSessions r0.sessions := by rw [hfresh1, hfresh2]; rfl
  have h2 : sessionsClosedOk r0.sessions = true := by rw [hfresh2]; rfl
  exact reaches_preserves hreach h1 h2

/-- Witness for C1: clock in at 100000 ms and clock out at 200000 ms
with report "x"; the hypotheses of the theorem hold and so does its
conclusion. -/
theorem c1_witness :
    c1r0.activeSeconds = 0 ∧ c1r0.sessions = [] ∧
    c1rFinal.status = Status.clockedOut ∧
    (c1rFinal.activeSeconds = sumSessions c1rFinal.sessions ∧
      sessionsClosedOk c1rFinal.sessions = true) :=
  ⟨rfl, rfl, by decide,
    c1_activeSeconds_eq_sum_closed_sessions c1r0 c1rFinal rfl rfl
      (Reaches.tail
        (Reaches.tail (Reaches.refl c1r0) (Step.clockIn c1r0 100000 (by decide)))
        (Step.clockOut (startWork c1r0 100000) 200000 "x" (by decide) (by decide)))
      (by decide)⟩

/-- C2: clock-in 09:00, away 11:00, resume 11:30, clock-out 18:00 with
report "done" on a user with no prior record yields one record with
`sessions = [{09:00, 11:00, 7200}, {11:30, 18:00, 23400}]`,
`breaks = [{11:00, 11:30, 1800}]`, `activeSeconds = 30600` and
`status = clocked-out`. -/
theorem c2_standard_day_scenario :
    c2FinalStore.map AttendanceRecord.sessions =
      [[⟨32400000, some 39600000, 7200⟩, ⟨41400000, some 64800000, 23400⟩]] ∧
    c2FinalStore.map AttendanceRecord.breaks =
      [[⟨39600000, some 41400000, 1800⟩]] ∧
    c2FinalStore.map AttendanceRecord.activeSeconds = [30600] ∧
    c2FinalStore.map AttendanceRecord.status = [Status.clockedOut] := by
  decide

/-- C3: whenever the cross-day active lookup finds a record, the
today-resolution used by the read path returns exactly that record
before any date-scoped fallback; concretely, a session clocked in at
23:50 of day 0 is still found (and closed by a 00:20 next-day
clock-out) as the single record dated day 0, although day 1 is the
current day at clock-out time. -/
theorem c3_active_lookup_ignores_date
    (store : Store) (now : Int) (x : Nat × AttendanceRecord)
    (h : getActiveRecord store = some x) :
    (resolveTodayRecord store now).1 = some x ∧
    getTodayRangeStart 87600000 = 86400000 ∧
    c3MidStore.map AttendanceRecord.date = [0] ∧
    (getActiveRecord c3MidStore).map (fun y => y.2.date) = some 0 ∧
    c3FinalStore.length = 1 ∧
    c3FinalStore.map AttendanceRecord.date = [0] ∧
    c3FinalStore.map AttendanceRecord.status = [Status.clockedOut] := by
  refine ⟨?_, by decide, by decide, by decide, by decide, by decide, by decide⟩
  simp [resolveTodayRecord, h]

/-- Witness for C3: the cross-midnight store has an active record and
the today-resolution at a day-1 time returns it. -/
theorem c3_witness :
    getActiveRecord c3MidStore =
      some (0, startWork (newDayRecord 0 85800000) 85800000) ∧
    (resolveTodayRecord c3MidStore 87600000).1 =
      some (0, startWork (newDayRecord 0 85800000) 85800000) :=
  ⟨by decide,
    (c3_active_lookup_ignores_date c3MidStore 87600000 _ (by decide)).1⟩

/-- C4: on a clocked-in record with an open segment, the today read
reports the persisted `activeSeconds` plus the whole seconds elapsed
since `lastActiveAt`, leaves the store unchanged, and performs no
write. -/
theorem c4_getToday_live_seconds_no_write
    (store : Store) (now : Int) (i : Nat) (r : AttendanceRecord) (la : Int)
    (h : getActiveRecord store = some (i, r)) (hst : r.status = Status.clockedIn)
    (hla : r.lastActiveAt = some la) :
    (getToday store now).store = store ∧
    StoreEvent.write ∉ (getToday store now).events ∧
    ∃ snap, (getToday store now).response = Resp.ok snap ∧
      snap.activeSeconds = r.activeSeconds + msToSec (now - la) := by
  refine ⟨?_, ?_, ?_⟩
  · simp [getToday, resolveTodayRecord, h]
  · simp [getToday, resolveTodayRecord, h]
  · refine ⟨{ status := r.status, clockIn := r.clockIn, clockOut := r.clockOut,
              activeSeconds := r.activeSeconds + msToSec (now - la),
              totalBreakSeconds := some (totalBreakSeconds r.breaks),
              breaksCount := some r.breaks.length,
              lastActiveAt := r.lastActiveAt, dailyReport := r.dailyReport }, ?_, rfl⟩
    simp [getToday, resolveTodayRecord, h, hst, hla]

/-- Witness for C4: a clocked-in record with 1000 s persisted and
`lastActiveAt` 10 minutes (600000 ms) before `now` reports
`1000 + 600` seconds without writing. -/
theorem c4_witness :
    getActiveRecord [c4Rec] = some (0, c4Rec) ∧
    c4Rec.status = Status.clockedIn ∧ c4Rec.lastActiveAt = some 0 ∧
    msToSec (600000 - 0) = 600 ∧
    ((getToday [c4Rec] 600000).store = [c4Rec] ∧
      StoreEvent.write ∉ (getToday [c4Rec] 600000).events ∧
      ∃ snap, (getToday [c4Rec] 600000).response = Resp.ok snap ∧
        snap.activeSeconds = c4Rec.activeSeconds + msToSec (600000 - 0)) :=
  ⟨by decide, by decide, by decide, by decide,
    c4_getToday_live_seconds_no_write [c4Rec] 600000 0 c4Rec 0
      (by decide) (by decide) (by decide)⟩

/-- C5: a clock-in while any record is already clocked-in or away is
rejected with a 400 and the store is returned unchanged after the
single active-lookup read. -/
theorem c5_double_clockIn_rejected_no_mutation
    (store : Store) (now : Int) (x : Nat × AttendanceRecord)
    (h : getActiveRecord store = some x) :
    clockIn store now =
      { store := store,
        response := Resp.err "You are already clocked in. Please clock out first.",
        events := [StoreEvent.read] } := by
  simp [clockIn, getRecordForClockIn, h]

/-- Witness for C5: a second clock-in over an away record is rejected
and mutates nothing. -/
theorem c5_witness :
    getActiveRecord [c5Rec] = some (0, c5Rec) ∧
    clockIn [c5Rec] 3600000 =
      { store := [c5Rec],
        response := Resp.err "You are already clocked in. Please clock out first.",
        events := [StoreEvent.read] } :=
  ⟨by decide, c5_double_clockIn_rejected_no_mutation [c5Rec] 3600000 (0, c5Rec) (by decide)⟩

/-- C6 counterexample: a clock-out with a missing report against a
clocked-in record returns the validation failure, yet the call's store
access trace is not empty — the active-record read happens before the
report validation, contradicting "no store read or write occurs before
the validation failure is returned". -/
theorem c6_counterexample_read_before_validation :
    clockOut c6Store 1000 none =
      { store := c6Store,
        response := Resp.err "Daily report is required when clocking out",
        events := [StoreEvent.read] } ∧
    (clockOut c6Store 1000 none).events ≠ [] ∧
    StoreEvent.read ∈ (clockOut c6Store 1000 none).events := by
  decide

/-- C6 amended: a clock-out whose report is missing or blank, made
while an active record exists, is rejected as a validation failure
with no store write; exactly one store read (the active-record lookup)
precedes the validation check. -/
theorem c6_amended_reject_no_write_after_one_read
    (store : Store) (now : Int) (report : Option String)
    (x : Nat × AttendanceRecord)
    (h : getActiveRecord store = some x) (he : reportEmpty report = true) :
    clockOut store now report =
      { store := store,
        response := Resp.err "Daily report is required when clocking out",
        events := [StoreEvent.read] } := by
  obtain ⟨i, r⟩ := x
  simp [clockOut, h, he]

/-- Witness for C6 amended: a whitespace-only report is rejected with
one read and no write. -/
theorem c6_witness :
    getActiveRecord c6Store = some (0, startWork (newDayRecord 0 0) 0) ∧
    reportEmpty (some "  ") = true ∧
    clockOut c6Store 1000 (some "  ") =
      { store := c6Store,
        response := Resp.err "Daily report is required when clocking out",
        events := [StoreEvent.read] } :=
  ⟨by decide, by decide,
    c6_amended_reject_no_write_after_one_read c6Store 1000 (some "  ")
      (0, startWork (newDayRecord 0 0) 0) (by decide) (by decide)⟩

/-- C7: the history aggregation counts a record toward `daysPresent`
exactly when its status is not `absent`; `totalWorkingHours` is a
multiple of one tenth within 1/20 hour of `activeSeconds`-sum / 3600
(i.e. the sum of hours rounded to the nearest 0.1); the spec's example
records give `daysPresent = 2` and `totalWorkingHours = 9.0`. -/
theorem c7_history_aggregation :
    (∀ (store : Store) (a b : Int),
      daysPresent (historyRecords store a b) =
        ((historyRecords store a b).filter
          (fun r => !(decide (r.status = Status.absent)))).length) ∧
    daysPresent c7Records = 2 ∧
    totalWorkingHours c7Records = 9 ∧
    (∀ records : List AttendanceRecord, ∃ k : ℤ,
      totalWorkingHours records = (k : ℚ) / 10 ∧
      |totalWorkingHours records - (totalActiveSeconds records : ℚ) / 3600| ≤ 1/20) := by
  refine ⟨?_, by decide, ?_, ?_⟩
  · intro store a b
    unfold daysPresent
    congr 1
    apply List.filter_congr
    intro r _
    cases hst : r.status <;> simp [isPresentStatus, hst]
  · have ht : totalActiveSeconds c7Records = 32400 := by decide
    unfold totalWorkingHours
    rw [ht]
    have h1 : (((32400 : ℤ) : ℚ) / 3600 * 10 + 1/2) = 181/2 := by norm_num
    rw [h1]
    have h2 : Rat.floor ((181 : ℚ)/2) = ⌊(181 : ℚ)/2⌋ := rfl
    rw [h2]
    have h3 : ⌊(181 : ℚ)/2⌋ = 90 := by
      rw [Int.floor_eq_iff]
      norm_num
    rw [h3]
    norm_num
  · intro records
    refine ⟨Rat.floor ((totalActiveSeconds records : ℚ) / 3600 * 10 + 1/2), rfl, ?_⟩
    unfold totalWorkingHours
    set x : ℚ := (totalActiveSeconds records : ℚ) / 3600 with hx
    have hb : Rat.floor (x * 10 + 1/2) = ⌊x * 10 + 1/2⌋ := rfl
    rw [hb]
    have hk1 : ((⌊x * 10 + 1/2⌋ : ℤ) : ℚ) ≤ x * 10 + 1/2 := Int.floor_le _
    have hk2 : x * 10 + 1/2 < (⌊x * 10 + 1/2⌋ : ℤ) + 1 := Int.lt_floor_add_one _
    rw [abs_le]
    refine ⟨by linarith, by linarith⟩

/-- C8: an admin override of a day that already has a record sets, for
`absent`, `activeSeconds = 0` with `clockIn`/`clockOut` cleared, and
for `present`, a clocked-out record with `activeSeconds = 28800`,
`clockOut = day start + 28800 s` and a clock-in timestamp set. -/
theorem c8_admin_override_existing_record
    (store : Store) (day : Int) (i : Nat) (r : AttendanceRecord)
    (h : findByDate store day = some (i, r)) :
    (adminOverride store day OverrideStatus.absent).store =
      store.set i (overrideExistingRec r day OverrideStatus.absent) ∧
    (overrideExistingRec r day OverrideStatus.absent).activeSeconds = 0 ∧
    (overrideExistingRec r day OverrideStatus.absent).clockIn = none ∧
    (overrideExistingRec r day OverrideStatus.absent).clockOut = none ∧
    (adminOverride store day OverrideStatus.present).store =
      store.set i (overrideExistingRec r day OverrideStatus.present) ∧
    (overrideExistingRec r day OverrideStatus.present).status = Status.clockedOut ∧
    (overrideExistingRec r day OverrideStatus.present).activeSeconds = 28800 ∧
    (overrideExistingRec r day OverrideStatus.present).clockOut =
      some (day + 28800 * 1000) ∧
    ∃ c, (overrideExistingRec r day OverrideStatus.present).clockIn = some c := by
  refine ⟨?_, rfl, rfl, rfl, ?_, rfl, rfl, rfl, ?_⟩
  · simp [adminOverride, h]
  · simp [adminOverride, h]
  · cases hc : r.clockIn with
    | none => exact ⟨day, by simp [overrideExistingRec, hc]⟩
    | some c => exact ⟨c, by simp [overrideExistingRec, hc]⟩

/-- Witness for C8: overriding day 0, which holds a clocked-out
record, to absent and to present. -/
theorem c8_witness :
    findByDate [c8Rec] 0 = some (0, c8Rec) ∧
    (adminOverride [c8Rec] 0 OverrideStatus.absent).store =
      [overrideExistingRec c8Rec 0 OverrideStatus.absent] ∧
    (overrideExistingRec c8Rec 0 OverrideStatus.absent).activeSeconds = 0 ∧
    (overrideExistingRec c8Rec 0 OverrideStatus.absent).clockIn = none ∧
    (overrideExistingRec c8Rec 0 OverrideStatus.absent).clockOut = none ∧
    (overrideExistingRec c8Rec 0 OverrideStatus.present).status = Status.clockedOut ∧
    (overrideExistingRec c8Rec 0 OverrideStatus.present).activeSeconds = 28800 ∧
    (overrideExistingRec c8Rec 0 OverrideStatus.present).clockOut =
      some (0 + 28800 * 1000) :=
  ⟨by decide,
    (c8_admin_override_existing_record [c8Rec] 0 0 c8Rec (by decide)).1,
    (c8_admin_override_existing_record [c8Rec] 0 0 c8Rec (by decide)).2.1,
    (c8_admin_override_existing_record [c8Rec] 0 0 c8Rec (by decide)).2.2.1,
    (c8_admin_override_existing_record [c8Rec] 0 0 c8Rec (by decide)).2.2.2.1,
    (c8_admin_override_existing_record [c8Rec] 0 0 c8Rec (by decide)).2.2.2.2.2.1,
    (c8_admin_override_existing_record [c8Rec] 0 0 c8Rec (by decide)).2.2.2.2.2.2.1,
    (c8_admin_override_existing_record [c8Rec] 0 0 c8Rec (by decide)).2.2.2.2.2.2.2.1⟩

/-- C9 counterexample: clocking in (which sets `lastActiveAt`) and then
admin-overriding that day to present yields a record with
`status = clocked-out` whose `lastActiveAt` is still set — the override
path violates "lastActiveAt is present iff status is clocked-in". -/
theorem c9_counterexample_override_keeps_lastActiveAt :
    c9Store.map AttendanceRecord.status = [Status.clockedOut] ∧
    c9Store.map AttendanceRecord.lastActiveAt = [some 100000] ∧
    ¬ (∀ r ∈ c9Store, lastActiveInv r) := by
  decide

/-- C9 amended: every record mutation of the normal lifecycle
(clock-in, go-away, resume, clock-out) and every override to absent,
as well as override records created from scratch, re-establish
"lastActiveAt present iff clocked-in"; an override-to-present of an
existing record preserves it only when the record's `lastActiveAt` was
already unset. -/
theorem c9_amended_lastActiveAt_invariant
    (r : AttendanceRecord) (now : Int) (rep : String) (day : Int) :
    lastActiveInv (startWork r now) ∧
    lastActiveInv (goAwayRec r now) ∧
    lastActiveInv (resumeRec r now) ∧
    lastActiveInv (clockOutRec r now rep) ∧
    lastActiveInv (overrideExistingRec r day OverrideStatus.absent) ∧
    lastActiveInv (overrideNewRec day OverrideStatus.present) ∧
    lastActiveInv (overrideNewRec day OverrideStatus.absent) ∧
    (r.lastActiveAt = none →
      lastActiveInv (overrideExistingRec r day OverrideStatus.present)) := by
  refine ⟨?_, ?_, ?_, ?_, ?_, ?_, ?_, ?_⟩
  · simp [lastActiveInv, startWork]
  · simp [lastActiveInv, goAwayRec]
  · simp [lastActiveInv, resumeRec]
  · simp [lastActiveInv, clockOutRec]
  · simp [lastActiveInv, overrideExistingRec]
  · simp [lastActiveInv, overrideNewRec]
  · simp [lastActiveInv, overrideNewRec]
  · intro hnone
    simp [lastActiveInv, overrideExistingRec, hnone]

/-- Witness for C9 amended: a record with `lastActiveAt` unset keeps
the invariant through an override to present. -/
theorem c9_witness :
    (newDayRecord 0 0).lastActiveAt = none ∧
    lastActiveInv (overrideExistingRec (newDayRecord 0 0) 0 OverrideStatus.present) :=
  ⟨rfl,
    (c9_amended_lastActiveAt_invariant (newDayRecord 0 0) 5 "x" 0).2.2.2.2.2.2.2 rfl⟩

/-- C10: when no active record exists and the current day has no
record, the today read succeeds (HTTP 200, not a not-found error) with
the synthetic snapshot: status absent, zero seconds, null clock-in,
clock-out and lastActiveAt, empty dailyReport — and no write. -/
theorem c10_getToday_synthetic_absent
    (store : Store) (now : Int)
    (h1 : getActiveRecord store = none)
    (h2 : findByDate store (getTodayRangeStart now) = none) :
    getToday store now =
      { store := store,
        response := Resp.ok { status := Status.absent, clockIn := none, clockOut := none,
                              activeSeconds := 0, totalBreakSeconds := none,
                              breaksCount := none, lastActiveAt := none,
                              dailyReport := "" },
        events := [StoreEvent.read, StoreEvent.read] } := by
  simp [getToday, resolveTodayRecord, h1, h2]

/-- Witness for C10: the empty collection. -/
theorem c10_witness :
    getActiveRecord [] = none ∧ findByDate [] (getTodayRangeStart 0) = none ∧
    getToday [] 0 =
      { store := [],
        response := Resp.ok { status := Status.absent, clockIn := none, clockOut := none,
                              activeSeconds := 0, totalBreakSeconds := none,
                              breaksCount := none, lastActiveAt := none,
                              dailyReport := "" },
        events := [StoreEvent.read, StoreEvent.read] } :=
  ⟨rfl, rfl, c10_getToday_synthetic_absent [] 0 rfl rfl⟩
